import Mathlib

/-! Minimal D3D11 Win32 application: a trace model of `src/main.cpp`.

The program is a linear sequence of calls to the Win32, DXGI and Direct3D 11
interfaces.  Its functions are embedded as pure functions that thread the
process-wide handles (`Globals`) explicitly and return the list of calls
they issue, each call stamped with the value of the globals at the moment
it is issued.

What the external interfaces answer (return codes, the handles written
through out-parameters, the compiler's diagnostic blob, the messages
found by `PeekMessage`) is an input of the model: the record `Env` and the
list of poll results given to `WinMain`.

Conventions.
* A handle is a natural number, `0` is `nullptr`.
* An `HRESULT` is an integer, `FAILED hr` is `hr < 0`.
* A method call through a pointer is recorded with the value of that pointer
  as receiver; the model does not stop at a null receiver, so that the
  absence of such calls can be stated and proved.
* The float literals of the source that are decimal fractions (`0.4f`, ...)
  are kept as the rational the literal denotes.
* The pure accessors `GetBufferPointer`, `GetBufferSize` and `strlen` are
  not recorded as calls.
-/

namespace MinimalD3D


/-! ## Basic types and constants of the platform headers -/

/-- A window handle or COM interface pointer; `0` is `nullptr`. -/
abbrev Handle := Nat

/-- A 32-bit signed status code. -/
abbrev HRESULT := Int

/-- The success code of winerror.h. -/
def S_OK : HRESULT := 0

/-- The test `FAILED(hr)` of winerror.h: the status is negative. -/
def FAILED (hr : HRESULT) : Bool := decide (hr < 0)

/-- The quit message id of winuser.h. -/
def WM_QUIT : Nat := 0x0012

/-- The destroy message id of winuser.h. -/
def WM_DESTROY : Nat := 0x0002

/-- The remove flag of `PeekMessage` (winuser.h). -/
def PM_REMOVE : Nat := 0x0001

/-- Compiler flag of d3dcompiler.h. -/
def D3DCOMPILE_DEBUG : Nat := 1

/-- Compiler flag of d3dcompiler.h. -/
def D3DCOMPILE_SKIP_OPTIMIZATION : Nat := 4

/-- Compiler flag of d3dcompiler.h. -/
def D3DCOMPILE_ENABLE_STRICTNESS : Nat := 2048

/-- Topology code of d3dcommon.h. -/
def D3D11_PRIMITIVE_TOPOLOGY_TRIANGLELIST : Nat := 4

/-- The viewport record of d3d11.h. -/
structure D3D11_VIEWPORT where
  TopLeftX : ℚ
  TopLeftY : ℚ
  Width : ℚ
  Height : ℚ
  MinDepth : ℚ
  MaxDepth : ℚ
  deriving DecidableEq

/-- The client rectangle written by `GetClientRect`. -/
structure RECT where
  left : Int
  top : Int
  right : Int
  bottom : Int
  deriving DecidableEq

/-- The fields of a retrieved message that the program hands on. -/
structure MSG where
  hwnd : Handle
  message : Nat
  wParam : Nat
  lParam : Int
  deriving DecidableEq

/-- The swap-chain description filled in by `InitD3D` (lines 87-99); the
enumerators are kept by name. -/
structure DXGI_SWAP_CHAIN_DESC where
  BufferCount : Nat
  Width : Nat
  Height : Nat
  Format : String
  RefreshRateNumerator : Nat
  RefreshRateDenominator : Nat
  BufferUsage : String
  OutputWindow : Handle
  SampleCount : Nat
  SampleQuality : Nat
  Windowed : Bool
  SwapEffect : String
  deriving DecidableEq

/-- A four-component float vector of the shading language. -/
structure float4 where
  x : ℚ
  y : ℚ
  z : ℚ
  w : ℚ
  deriving DecidableEq

/-! ## Process-wide state (lines 20-27) -/

/-- The global variables of the program. -/
structure Globals where
  g_hWnd : Handle
  g_pd3dDevice : Handle
  g_pImmediateContext : Handle
  g_pSwapChain : Handle
  g_pRenderTargetView : Handle
  g_pVertexShader : Handle
  g_pPixelShader : Handle
  g_viewport : D3D11_VIEWPORT
  deriving DecidableEq

/-- The static initial values: every handle `nullptr`, the viewport zeroed. -/
def Globals.initial : Globals :=
  { g_hWnd := 0, g_pd3dDevice := 0, g_pImmediateContext := 0, g_pSwapChain := 0,
    g_pRenderTargetView := 0, g_pVertexShader := 0, g_pPixelShader := 0,
    g_viewport := ⟨0, 0, 0, 0, 0, 0⟩ }

/-! ## Calls and traces -/

/-- The pointer variable through which a `Release` is made. -/
inductive Ptr
  | g_pd3dDevice
  | g_pImmediateContext
  | g_pSwapChain
  | g_pRenderTargetView
  | g_pVertexShader
  | g_pPixelShader
  | pBackBuffer
  | vsBlob
  | psBlob
  | pError
  deriving DecidableEq

/-- The functions of the program that are called from its own code. -/
inductive Fn
  | CompileShader
  | InitD3D
  | Render
  | Cleanup
  deriving DecidableEq

/-- One call issued by the program: a call of an external interface, with the
receiver and the arguments the source passes, or (`invoke`) a call of one of
the program's own functions, recorded at the call site. -/
inductive Event
  | RegisterClassEx (hInstance : Handle) (className : String)
  | CreateWindowEx (className title : String) (width height : Int) (hInstance : Handle)
  | ShowWindow (hWnd : Handle) (nCmdShow : Int)
  | UpdateWindow (hWnd : Handle)
  | D3D11CreateDeviceAndSwapChain (sd : DXGI_SWAP_CHAIN_DESC)
  | GetBuffer (swapChain : Handle) (buffer : Nat)
  | CreateRenderTargetView (device resource : Handle)
  | Release (p : Ptr) (h : Handle)
  | OMSetRenderTargets (context : Handle) (numViews : Nat) (rtv : Handle)
  | GetClientRect (hWnd : Handle)
  | RSSetViewports (context : Handle) (numViewports : Nat) (vp : D3D11_VIEWPORT)
  | D3DCompile (src entry target : String) (flags : Nat)
  | OutputDebugStringA (text : String)
  | CreateVertexShader (device bytecode : Handle)
  | CreatePixelShader (device bytecode : Handle)
  | ClearRenderTargetView (context rtv : Handle) (color : float4)
  | IASetPrimitiveTopology (context : Handle) (topology : Nat)
  | VSSetShader (context shader : Handle)
  | PSSetShader (context shader : Handle)
  | Draw (context : Handle) (vertexCount startVertexLocation : Nat)
  | Present (swapChain : Handle) (syncInterval flags : Nat)
  | ClearState (context : Handle)
  | PeekMessage (wRemoveMsg : Nat)
  | TranslateMessage (msg : MSG)
  | DispatchMessage (msg : MSG)
  | PostQuitMessage (exitCode : Int)
  | DefWindowProc (hWnd : Handle) (msg wParam : Nat) (lParam : Int)
  | invoke (f : Fn)
  deriving DecidableEq

/-- A trace: the calls in the order they are issued, each with the globals
as they are when the call is made. -/
abbrev Trace := List (Globals × Event)

/-- The calls of a trace without their stamps. -/
def events (t : Trace) : List Event := t.map Prod.snd

/-! ## The environment -/

/-- What `D3DCompile` hands back: its status, the code blob written to
`*ppBlob`, the error blob written to `pError` and the text that blob holds. -/
structure CompileResult where
  hr : HRESULT
  pBlob : Handle
  pError : Handle
  errorText : String

/-- The answers of the external interfaces in one run of the program. -/
structure Env where
  /-- The atom returned by `RegisterClassEx` (`0` on failure). -/
  RegisterClassEx : Nat
  /-- The window handle returned by `CreateWindowEx` (`0` on failure). -/
  CreateWindowEx : Handle
  /-- Status of `D3D11CreateDeviceAndSwapChain` and its three out-parameters. -/
  D3D11CreateDeviceAndSwapChain : HRESULT
  swapChain : Handle
  device : Handle
  context : Handle
  /-- Status of `GetBuffer` and the surface it writes. -/
  GetBuffer : HRESULT
  backBuffer : Handle
  /-- Status of `CreateRenderTargetView` and the view it writes. -/
  CreateRenderTargetView : HRESULT
  renderTargetView : Handle
  /-- The rectangle written by `GetClientRect`. -/
  GetClientRect : RECT
  /-- The compiler, as a function of source, entry point, target and flags. -/
  D3DCompile : String → String → String → Nat → CompileResult
  /-- Status of `CreateVertexShader` and the shader it writes. -/
  CreateVertexShader : HRESULT
  vertexShader : Handle
  /-- Status of `CreatePixelShader` and the shader it writes. -/
  CreatePixelShader : HRESULT
  pixelShader : Handle
  /-- The value returned by `DefWindowProc`. -/
  DefWindowProc : Handle → Nat → Nat → Int → Int

/-! ## Shaders (lines 32-53) -/

/-- The vertex-shader source text, lines 32-44. -/
def g_vsSrc : String :=
  "\nfloat4 VSMain(uint id : SV_VertexID) : SV_Position\n\x7b\n" ++
  "    // 3 vertices that cover the whole screen (clip space)\n" ++
  "    float2 pos[3] = \x7b\n" ++
  "        float2(-1.0, -1.0),   // bottom-left\n" ++
  "        float2( 3.0, -1.0),   // bottom-right (extends beyond screen)\n" ++
  "        float2(-1.0,  3.0)    // top-left (extends beyond screen)\n" ++
  "    \x7d;\n" ++
  "    return float4(pos[id], 0.0, 1.0);\n\x7d\n"

/-- The pixel-shader source text, lines 46-53. -/
def g_psSrc : String :=
  "\nfloat4 PSMain() : SV_Target\n\x7b\n" ++
  "    // Simple red output\n" ++
  "    return float4(1.0, 0.0, 0.0, 1.0);\n\x7d\n"

/-- The array `pos` of `VSMain`. -/
def pos : Array (ℚ × ℚ) := #[(-1, -1), (3, -1), (-1, 3)]

/-- The vertex shader: `float4(pos[id], 0.0, 1.0)`.  An index outside the
array has no defined value. -/
def VSMain (id : Nat) : Option float4 :=
  (pos[id]?).map fun p => { x := p.1, y := p.2, z := 0, w := 1 }

/-- The pixel shader: constant opaque red. -/
def PSMain : float4 := { x := 1, y := 0, z := 0, w := 1 }

/-! ## `CompileShader` (lines 58-77) -/

/-- The compiler flags; `debug` is the build switch `_DEBUG`. -/
def compileFlags (debug : Bool) : Nat :=
  if debug then
    D3DCOMPILE_ENABLE_STRICTNESS ||| (D3DCOMPILE_DEBUG ||| D3DCOMPILE_SKIP_OPTIMIZATION)
  else
    D3DCOMPILE_ENABLE_STRICTNESS

/-- Lines 58-77: returns the status of `D3DCompile`, the code blob written to
`*ppBlob` and the calls issued. -/
def CompileShader (debug : Bool) (env : Env) (g : Globals) (src entry target : String) :
    HRESULT × Handle × Trace :=
  let flags := compileFlags debug
  let r := env.D3DCompile src entry target flags
  let t : Trace := [(g, Event.D3DCompile src entry target flags)]
  let t : Trace :=
    if FAILED r.hr then
      if r.pError ≠ 0 then
        t ++ [(g, Event.OutputDebugStringA r.errorText), (g, Event.Release Ptr.pError r.pError)]
      else t
    else t
  (r.hr, r.pBlob, t)

/-! ## `InitD3D` (lines 82-168) -/

/-- Lines 87-99. -/
def swapChainDesc (hWnd : Handle) : DXGI_SWAP_CHAIN_DESC :=
  { BufferCount := 1, Width := 0, Height := 0, Format := "DXGI_FORMAT_R8G8B8A8_UNORM",
    RefreshRateNumerator := 60, RefreshRateDenominator := 1,
    BufferUsage := "DXGI_USAGE_RENDER_TARGET_OUTPUT", OutputWindow := hWnd,
    SampleCount := 1, SampleQuality := 0, Windowed := true,
    SwapEffect := "DXGI_SWAP_EFFECT_DISCARD" }

/-- Lines 82-168: returns the status, the globals on return and the calls
issued. -/
def InitD3D (debug : Bool) (env : Env) (g : Globals) : HRESULT × Globals × Trace :=
  -- Create device and swap chain
  let t : Trace := [(g, Event.D3D11CreateDeviceAndSwapChain (swapChainDesc g.g_hWnd))]
  let g := { g with g_pSwapChain := env.swapChain, g_pd3dDevice := env.device,
                    g_pImmediateContext := env.context }
  let hr := env.D3D11CreateDeviceAndSwapChain
  if FAILED hr then (hr, g, t) else
  -- Create render target view
  let t := t ++ [(g, Event.GetBuffer g.g_pSwapChain 0)]
  let pBackBuffer := env.backBuffer
  let hr := env.GetBuffer
  if FAILED hr then (hr, g, t) else
  let t := t ++ [(g, Event.CreateRenderTargetView g.g_pd3dDevice pBackBuffer)]
  let g := { g with g_pRenderTargetView := env.renderTargetView }
  let hr := env.CreateRenderTargetView
  let t := t ++ [(g, Event.Release Ptr.pBackBuffer pBackBuffer)]
  if FAILED hr then (hr, g, t) else
  -- Bind the view
  let t := t ++ [(g, Event.OMSetRenderTargets g.g_pImmediateContext 1 g.g_pRenderTargetView)]
  -- Setup viewport
  let t := t ++ [(g, Event.GetClientRect g.g_hWnd)]
  let rc := env.GetClientRect
  let g := { g with g_viewport :=
    { TopLeftX := 0, TopLeftY := 0, Width := ((rc.right - rc.left : Int) : ℚ),
      Height := ((rc.bottom - rc.top : Int) : ℚ), MinDepth := 0, MaxDepth := 1 } }
  let t := t ++ [(g, Event.RSSetViewports g.g_pImmediateContext 1 g.g_viewport)]
  -- Compile shaders
  let t := t ++ [(g, Event.invoke Fn.CompileShader)]
  let (hr, vsBlob, tc) := CompileShader debug env g g_vsSrc "VSMain" "vs_5_0"
  let t := t ++ tc
  if FAILED hr then (hr, g, t) else
  let t := t ++ [(g, Event.invoke Fn.CompileShader)]
  let (hr, psBlob, tc) := CompileShader debug env g g_psSrc "PSMain" "ps_5_0"
  let t := t ++ tc
  if FAILED hr then (hr, g, t ++ [(g, Event.Release Ptr.vsBlob vsBlob)]) else
  -- Create shader objects
  let t := t ++ [(g, Event.CreateVertexShader g.g_pd3dDevice vsBlob)]
  let g := { g with g_pVertexShader := env.vertexShader }
  let hr := env.CreateVertexShader
  if FAILED hr then
    (hr, g, t ++ [(g, Event.Release Ptr.vsBlob vsBlob), (g, Event.Release Ptr.psBlob psBlob)])
  else
  let t := t ++ [(g, Event.CreatePixelShader g.g_pd3dDevice psBlob)]
  let g := { g with g_pPixelShader := env.pixelShader }
  let hr := env.CreatePixelShader
  if FAILED hr then
    (hr, g, t ++ [(g, Event.Release Ptr.vsBlob vsBlob), (g, Event.Release Ptr.psBlob psBlob)])
  else
  (S_OK, g, t ++ [(g, Event.Release Ptr.vsBlob vsBlob), (g, Event.Release Ptr.psBlob psBlob)])

/-! ## `Render` (lines 173-189) -/

/-- The array `clearColor` of line 176. -/
def clearColor : float4 := { x := 0.4, y := 0.6, z := 0.9, w := 1.0 }

/-- Lines 173-189: the calls of one frame.  The globals are not written. -/
def Render (g : Globals) : Trace :=
  [ (g, Event.ClearRenderTargetView g.g_pImmediateContext g.g_pRenderTargetView clearColor),
    (g, Event.IASetPrimitiveTopology g.g_pImmediateContext D3D11_PRIMITIVE_TOPOLOGY_TRIANGLELIST),
    (g, Event.VSSetShader g.g_pImmediateContext g.g_pVertexShader),
    (g, Event.PSSetShader g.g_pImmediateContext g.g_pPixelShader),
    (g, Event.Draw g.g_pImmediateContext 3 0),
    (g, Event.Present g.g_pSwapChain 1 0) ]

/-! ## `Cleanup` (lines 194-203) -/

/-- Lines 194-203: returns the globals on return (no assignment is made to
them) and the calls issued. -/
def Cleanup (g : Globals) : Globals × Trace :=
  let t : Trace := []
  let t := if g.g_pImmediateContext ≠ 0 then t ++ [(g, Event.ClearState g.g_pImmediateContext)] else t
  let t := if g.g_pPixelShader ≠ 0 then t ++ [(g, Event.Release Ptr.g_pPixelShader g.g_pPixelShader)] else t
  let t := if g.g_pVertexShader ≠ 0 then t ++ [(g, Event.Release Ptr.g_pVertexShader g.g_pVertexShader)] else t
  let t := if g.g_pRenderTargetView ≠ 0 then t ++ [(g, Event.Release Ptr.g_pRenderTargetView g.g_pRenderTargetView)] else t
  let t := if g.g_pSwapChain ≠ 0 then t ++ [(g, Event.Release Ptr.g_pSwapChain g.g_pSwapChain)] else t
  let t := if g.g_pImmediateContext ≠ 0 then t ++ [(g, Event.Release Ptr.g_pImmediateContext g.g_pImmediateContext)] else t
  let t := if g.g_pd3dDevice ≠ 0 then t ++ [(g, Event.Release Ptr.g_pd3dDevice g.g_pd3dDevice)] else t
  (g, t)

/-! ## `WndProc` (lines 208-217) -/

/-- Lines 208-217: the value returned and the calls issued. -/
def WndProc (env : Env) (g : Globals) (hWnd : Handle) (msg wParam : Nat) (lParam : Int) :
    Int × Trace :=
  if msg = WM_DESTROY then (0, [(g, Event.PostQuitMessage 0)])
  else (env.DefWindowProc hWnd msg wParam lParam, [(g, Event.DefWindowProc hWnd msg wParam lParam)])

/-! ## `WinMain` (lines 222-262) -/

/-- The main loop, lines 248-258.  `message` is the field `msg.message`; each
element of the list is the answer of one `PeekMessage`: `none` when no message
is pending (the call returns `FALSE` and leaves `msg` as it is), `some m` when
`m` is retrieved.  Returns whether the loop has ended, and the calls issued;
when the answers run out with `msg.message` not yet `WM_QUIT` the loop has not
ended.  What the system does inside `DispatchMessage` (it may run `WndProc`)
is not part of this trace; `WndProc` is embedded on its own above. -/
def mainLoop (g : Globals) : Nat → List (Option MSG) → Bool × Trace
  | message, [] => (decide (message = WM_QUIT), [])
  | message, p :: rest =>
    if message = WM_QUIT then (true, [])
    else
      match p with
      | some m =>
        let (ended, t) := mainLoop g m.message rest
        (ended, (g, Event.PeekMessage PM_REMOVE) :: (g, Event.TranslateMessage m) ::
                  (g, Event.DispatchMessage m) :: t)
      | none =>
        let (ended, t) := mainLoop g message rest
        (ended, (g, Event.PeekMessage PM_REMOVE) :: (g, Event.invoke Fn.Render) ::
                  (Render g ++ t))

/-- One run of the program as far as the poll answers reach: the exit code
when `WinMain` has returned (`none` while it is still in its loop), the globals
and the calls issued. -/
structure Run where
  exitCode : Option Int
  g : Globals
  trace : Trace

/-- Lines 222-262. -/
def WinMain (debug : Bool) (env : Env) (hInstance : Handle) (nCmdShow : Int)
    (polls : List (Option MSG)) : Run :=
  let g := Globals.initial
  -- Register window class
  let lpszClassName := "MinimalD3D11Window"
  let t : Trace := [(g, Event.RegisterClassEx hInstance lpszClassName)]
  -- Create window
  let t := t ++ [(g, Event.CreateWindowEx lpszClassName "Minimal D3D11" 800 600 hInstance)]
  let g := { g with g_hWnd := env.CreateWindowEx }
  if g.g_hWnd = 0 then { exitCode := some (-1), g := g, trace := t } else
  let t := t ++ [(g, Event.ShowWindow g.g_hWnd nCmdShow), (g, Event.UpdateWindow g.g_hWnd)]
  -- Init D3D
  let t := t ++ [(g, Event.invoke Fn.InitD3D)]
  let (hr, g, ti) := InitD3D debug env g
  let t := t ++ ti
  if FAILED hr then { exitCode := some (-1), g := g, trace := t } else
  -- Main loop
  let (ended, tl) := mainLoop g 0 polls
  let t := t ++ tl
  if ended then
    let t := t ++ [(g, Event.invoke Fn.Cleanup)]
    let (g, tc) := Cleanup g
    { exitCode := some 0, g := g, trace := t ++ tc }
  else { exitCode := none, g := g, trace := t }

/-! ## Observations on traces, closed forms and sample inputs -/

/-- Is the call a `ClearRenderTargetView`? -/
def Event.isClear : Event → Bool
  | Event.ClearRenderTargetView _ _ _ => true
  | _ => false

/-- Is the call a `Draw`? -/
def Event.isDraw : Event → Bool
  | Event.Draw _ _ _ => true
  | _ => false

/-- Is the call a `Present`? -/
def Event.isPresent : Event → Bool
  | Event.Present _ _ _ => true
  | _ => false

/-- Is the call a `Release` made through the pointer variable `p`? -/
def Event.isReleaseOf (p : Ptr) : Event → Bool
  | Event.Release q _ => decide (q = p)
  | _ => false

/-- How many times a trace releases through the pointer variable `p`. -/
def releaseCount (p : Ptr) (t : Trace) : Nat := (events t).countP (Event.isReleaseOf p)

/-- The value of the pointer variable `p` when it is one of the global
handles (a local of `InitD3D` or `CompileShader` is not part of the globals
and is given `0`). -/
def Globals.handle (g : Globals) : Ptr → Handle
  | Ptr.g_pd3dDevice => g.g_pd3dDevice
  | Ptr.g_pImmediateContext => g.g_pImmediateContext
  | Ptr.g_pSwapChain => g.g_pSwapChain
  | Ptr.g_pRenderTargetView => g.g_pRenderTargetView
  | Ptr.g_pVertexShader => g.g_pVertexShader
  | Ptr.g_pPixelShader => g.g_pPixelShader
  | _ => 0

/-- Two calls of `Cleanup` in a row: the globals after the second and the
calls of both. -/
def CleanupTwice (g : Globals) : Globals × Trace :=
  let (g1, t1) := Cleanup g
  let (g2, t2) := Cleanup g1
  (g2, t1 ++ t2)

/-- Globals in which every handle is live (six distinct non-null values). -/
def liveGlobals : Globals :=
  { g_hWnd := 7, g_pd3dDevice := 1, g_pImmediateContext := 2, g_pSwapChain := 3,
    g_pRenderTargetView := 4, g_pVertexShader := 5, g_pPixelShader := 6,
    g_viewport := ⟨0, 0, 800, 600, 0, 1⟩ }

/-- The global pointer variables in the order `Cleanup` visits them, each
with its value. -/
def releaseOrder (g : Globals) : List (Ptr × Handle) :=
  [ (Ptr.g_pPixelShader, g.g_pPixelShader),
    (Ptr.g_pVertexShader, g.g_pVertexShader),
    (Ptr.g_pRenderTargetView, g.g_pRenderTargetView),
    (Ptr.g_pSwapChain, g.g_pSwapChain),
    (Ptr.g_pImmediateContext, g.g_pImmediateContext),
    (Ptr.g_pd3dDevice, g.g_pd3dDevice) ]

/-- The result of the vertex-shader compilation in `InitD3D`. -/
def vsResult (debug : Bool) (env : Env) : CompileResult :=
  env.D3DCompile g_vsSrc "VSMain" "vs_5_0" (compileFlags debug)

/-- The result of the pixel-shader compilation in `InitD3D`. -/
def psResult (debug : Bool) (env : Env) : CompileResult :=
  env.D3DCompile g_psSrc "PSMain" "ps_5_0" (compileFlags debug)

/-- The calls of one `CompileShader`, without stamps. -/
def compileEvents (debug : Bool) (r : CompileResult) (src entry target : String) : List Event :=
  Event.D3DCompile src entry target (compileFlags debug) ::
    (if FAILED r.hr = true ∧ r.pError ≠ 0 then
      [Event.OutputDebugStringA r.errorText, Event.Release Ptr.pError r.pError]
    else [])

/-- Does the poll retrieve the quit message? -/
def isQuit : Option MSG → Bool
  | some m => decide (m.message = WM_QUIT)
  | none => false

/-- The polls the loop makes: those up to and including the first one that
retrieves `WM_QUIT`. -/
def consumed : List (Option MSG) → List (Option MSG)
  | [] => []
  | q :: rest => if isQuit q then [q] else q :: consumed rest

/-- The calls of one iteration of the loop body, by the answer of its poll. -/
def iterationTrace (g : Globals) : Option MSG → Trace
  | none => (g, Event.PeekMessage PM_REMOVE) :: (g, Event.invoke Fn.Render) :: Render g
  | some m => [(g, Event.PeekMessage PM_REMOVE), (g, Event.TranslateMessage m),
               (g, Event.DispatchMessage m)]

/-- The globals with which `WinMain` calls `InitD3D`. -/
def windowGlobals (env : Env) : Globals :=
  { Globals.initial with g_hWnd := env.CreateWindowEx }

/-- Is the call a call of the program's function `f`? -/
def Event.isInvoke (f : Fn) : Event → Bool
  | Event.invoke f1 => decide (f1 = f)
  | _ => false

/-- How many times a trace calls the function `f` of the program. -/
def invokeCount (f : Fn) (t : Trace) : Nat := (events t).countP (Event.isInvoke f)

/-- How many `Draw` calls a trace holds. -/
def drawCount (t : Trace) : Nat := (events t).countP Event.isDraw

/-- A call that belongs to start-up: not a `Draw`, not a call of `Render`, not
a call of `Cleanup`. -/
def Event.isStartup (e : Event) : Bool :=
  !e.isDraw && !e.isInvoke Fn.Render && !e.isInvoke Fn.Cleanup

/-- An environment in which every call succeeds and hands back a live object. -/
def okEnv : Env :=
  { RegisterClassEx := 49152, CreateWindowEx := 7,
    D3D11CreateDeviceAndSwapChain := 0, swapChain := 3, device := 1, context := 2,
    GetBuffer := 0, backBuffer := 8,
    CreateRenderTargetView := 0, renderTargetView := 4,
    GetClientRect := ⟨0, 0, 784, 561⟩,
    D3DCompile := fun _ _ _ _ => { hr := 0, pBlob := 9, pError := 0, errorText := "" },
    CreateVertexShader := 0, vertexShader := 5,
    CreatePixelShader := 0, pixelShader := 6,
    DefWindowProc := fun _ _ _ _ => 0 }

/-- As `okEnv`, but no device can be created (`E_FAIL`). -/
def noDeviceEnv : Env :=
  { okEnv with D3D11CreateDeviceAndSwapChain := -2147467259, swapChain := 0, device := 0,
               context := 0 }

/-- The quit message as retrieved from the queue. -/
def quitMsg : MSG := { hwnd := 0, message := WM_QUIT, wParam := 0, lParam := 0 }

/-- The six handles a frame uses are all non-null. -/
def Globals.ready (g : Globals) : Prop :=
  g.g_pd3dDevice ≠ 0 ∧ g.g_pImmediateContext ≠ 0 ∧ g.g_pSwapChain ≠ 0 ∧
  g.g_pRenderTargetView ≠ 0 ∧ g.g_pVertexShader ≠ 0 ∧ g.g_pPixelShader ≠ 0

instance (g : Globals) : Decidable g.ready := by
  unfold Globals.ready
  infer_instance

/-- The contract of the four creation calls of the graphics interface: when
the call succeeds, the object pointers it writes are non-null. -/
def ApiContract (env : Env) : Prop :=
  (FAILED env.D3D11CreateDeviceAndSwapChain = false →
    env.swapChain ≠ 0 ∧ env.device ≠ 0 ∧ env.context ≠ 0) ∧
  (FAILED env.CreateRenderTargetView = false → env.renderTargetView ≠ 0) ∧
  (FAILED env.CreateVertexShader = false → env.vertexShader ≠ 0) ∧
  (FAILED env.CreatePixelShader = false → env.pixelShader ≠ 0)

instance (env : Env) : Decidable (ApiContract env) := by
  unfold ApiContract
  infer_instance

/-- Is the call an `OMSetRenderTargets`? -/
def Event.isOMSetRenderTargets : Event → Bool
  | Event.OMSetRenderTargets _ _ _ => true
  | _ => false

/-- Is the call a `CreateVertexShader` or a `CreatePixelShader`? -/
def Event.isCreateShader : Event → Bool
  | Event.CreateVertexShader _ _ => true
  | Event.CreatePixelShader _ _ => true
  | _ => false

/-- The texts a trace sends to the debug sink, in order. -/
def debugOutput (t : Trace) : List String :=
  (events t).filterMap fun e =>
    match e with
    | Event.OutputDebugStringA text => some text
    | _ => none

/-- As `okEnv`, but `CreateRenderTargetView` fails (`E_INVALIDARG`). -/
def noViewEnv : Env :=
  { okEnv with CreateRenderTargetView := -2147024809, renderTargetView := 0 }

/-- As `okEnv`, but the compiler rejects the pixel shader (`E_FAIL`) and hands
back an error blob with a diagnostic. -/
def badPixelShaderEnv : Env :=
  { okEnv with D3DCompile := fun _ _ target _ =>
      if target = "ps_5_0" then
        { hr := -2147467259, pBlob := 0, pError := 10, errorText := "error X3000" }
      else { hr := 0, pBlob := 9, pError := 0, errorText := "" } }

/-! ## Theorems -/

/-- C1: among the calls of one `Render`, the clear, draw and present calls are
exactly one `ClearRenderTargetView` with colour (0.4, 0.6, 0.9, 1.0), one
`Draw(3, 0)` and one `Present(1, 0)`, in this order, whatever the globals. -/
theorem Render_clear_draw_present (g : Globals) :
    (events (Render g)).filter (fun e => e.isClear || e.isDraw || e.isPresent) =
      [ Event.ClearRenderTargetView g.g_pImmediateContext g.g_pRenderTargetView
          { x := 0.4, y := 0.6, z := 0.9, w := 1.0 },
        Event.Draw g.g_pImmediateContext 3 0,
        Event.Present g.g_pSwapChain 1 0 ] := by
  rfl

theorem Cleanup_events (g : Globals) :
    events (Cleanup g).2 =
      (if g.g_pImmediateContext ≠ 0 then [Event.ClearState g.g_pImmediateContext] else []) ++
      ((releaseOrder g).filter (fun q => decide (q.2 ≠ 0))).map
        (fun q => Event.Release q.1 q.2) := by
  by_cases h1 : g.g_pImmediateContext = 0 <;> by_cases h2 : g.g_pPixelShader = 0 <;>
    by_cases h3 : g.g_pVertexShader = 0 <;> by_cases h4 : g.g_pRenderTargetView = 0 <;>
    by_cases h5 : g.g_pSwapChain = 0 <;> by_cases h6 : g.g_pd3dDevice = 0 <;>
    simp [Cleanup, events, releaseOrder, h1, h2, h3, h4, h5, h6]

theorem releaseCount_nil (p : Ptr) : releaseCount p [] = 0 := rfl

theorem releaseCount_append (p : Ptr) (s t : Trace) :
    releaseCount p (s ++ t) = releaseCount p s + releaseCount p t := by
  simp [releaseCount, events, List.countP_append]

theorem releaseCount_cons (p : Ptr) (x : Globals × Event) (t : Trace) :
    releaseCount p (x :: t) = (if Event.isReleaseOf p x.2 then 1 else 0) + releaseCount p t := by
  simp [releaseCount, events, List.countP_cons, Nat.add_comm]

theorem Cleanup_globals (g : Globals) : (Cleanup g).1 = g := rfl

theorem releaseCount_ite (p : Ptr) (c : Prop) [Decidable c] (x : Globals × Event) :
    releaseCount p (if c then [x] else []) =
      if c then (if Event.isReleaseOf p x.2 then 1 else 0) else 0 := by
  by_cases hc : c <;> simp [hc, releaseCount, events, List.countP_cons]

theorem Cleanup_trace (g : Globals) :
    (Cleanup g).2 =
      (if g.g_pImmediateContext ≠ 0 then [(g, Event.ClearState g.g_pImmediateContext)] else []) ++
      ((if g.g_pPixelShader ≠ 0 then
          [(g, Event.Release Ptr.g_pPixelShader g.g_pPixelShader)] else []) ++
      ((if g.g_pVertexShader ≠ 0 then
          [(g, Event.Release Ptr.g_pVertexShader g.g_pVertexShader)] else []) ++
      ((if g.g_pRenderTargetView ≠ 0 then
          [(g, Event.Release Ptr.g_pRenderTargetView g.g_pRenderTargetView)] else []) ++
      ((if g.g_pSwapChain ≠ 0 then
          [(g, Event.Release Ptr.g_pSwapChain g.g_pSwapChain)] else []) ++
      ((if g.g_pImmediateContext ≠ 0 then
          [(g, Event.Release Ptr.g_pImmediateContext g.g_pImmediateContext)] else []) ++
      (if g.g_pd3dDevice ≠ 0 then
          [(g, Event.Release Ptr.g_pd3dDevice g.g_pd3dDevice)] else [])))))) := by
  by_cases h1 : g.g_pImmediateContext = 0 <;> by_cases h2 : g.g_pPixelShader = 0 <;>
    by_cases h3 : g.g_pVertexShader = 0 <;> by_cases h4 : g.g_pRenderTargetView = 0 <;>
    by_cases h5 : g.g_pSwapChain = 0 <;> by_cases h6 : g.g_pd3dDevice = 0 <;>
    simp [Cleanup, h1, h2, h3, h4, h5, h6]

theorem releaseCount_Cleanup (g : Globals) (p : Ptr) :
    releaseCount p (Cleanup g).2 = if g.handle p = 0 then 0 else 1 := by
  rw [Cleanup_trace]
  simp only [releaseCount_append, releaseCount_ite]
  cases p <;> simp [Event.isReleaseOf, Globals.handle]

theorem releaseCount_Render (g : Globals) (p : Ptr) : releaseCount p (Render g) = 0 := rfl

theorem releaseCount_mainLoop (g : Globals) (p : Ptr) (polls : List (Option MSG)) :
    ∀ message, releaseCount p (mainLoop g message polls).2 = 0 := by
  induction polls with
  | nil => intro message; rfl
  | cons q rest ih =>
    intro message
    unfold mainLoop
    by_cases hq : message = WM_QUIT
    · simp [hq, releaseCount_nil]
    · cases q with
      | none =>
        simp only [hq, if_false]
        simp [releaseCount_cons, releaseCount_append, releaseCount_Render, ih, Event.isReleaseOf]
      | some m =>
        simp only [hq, if_false]
        simp [releaseCount_cons, ih, Event.isReleaseOf]

theorem CompileShader_hr (debug : Bool) (env : Env) (g : Globals) (src entry target : String) :
    (CompileShader debug env g src entry target).1 =
      (env.D3DCompile src entry target (compileFlags debug)).hr := rfl

theorem CompileShader_events (debug : Bool) (env : Env) (g : Globals)
    (src entry target : String) :
    events (CompileShader debug env g src entry target).2.2 =
      compileEvents debug (env.D3DCompile src entry target (compileFlags debug))
        src entry target := by
  unfold CompileShader compileEvents
  simp only []
  split_ifs <;> simp_all [events]

theorem InitD3D_hr (debug : Bool) (env : Env) (g : Globals) :
    (InitD3D debug env g).1 =
      if FAILED env.D3D11CreateDeviceAndSwapChain then env.D3D11CreateDeviceAndSwapChain
      else if FAILED env.GetBuffer then env.GetBuffer
      else if FAILED env.CreateRenderTargetView then env.CreateRenderTargetView
      else if FAILED (vsResult debug env).hr then (vsResult debug env).hr
      else if FAILED (psResult debug env).hr then (psResult debug env).hr
      else if FAILED env.CreateVertexShader then env.CreateVertexShader
      else if FAILED env.CreatePixelShader then env.CreatePixelShader
      else S_OK := by
  unfold InitD3D CompileShader vsResult psResult
  simp only []
  split_ifs <;> rfl

theorem InitD3D_events (debug : Bool) (env : Env) (g : Globals) :
    events (InitD3D debug env g).2.2 =
      Event.D3D11CreateDeviceAndSwapChain (swapChainDesc g.g_hWnd) ::
      if FAILED env.D3D11CreateDeviceAndSwapChain then [] else
      Event.GetBuffer env.swapChain 0 ::
      if FAILED env.GetBuffer then [] else
      Event.CreateRenderTargetView env.device env.backBuffer ::
      Event.Release Ptr.pBackBuffer env.backBuffer ::
      if FAILED env.CreateRenderTargetView then [] else
      Event.OMSetRenderTargets env.context 1 env.renderTargetView ::
      Event.GetClientRect g.g_hWnd ::
      Event.RSSetViewports env.context 1
        { TopLeftX := 0, TopLeftY := 0,
          Width := ((env.GetClientRect.right - env.GetClientRect.left : Int) : ℚ),
          Height := ((env.GetClientRect.bottom - env.GetClientRect.top : Int) : ℚ),
          MinDepth := 0, MaxDepth := 1 } ::
      Event.invoke Fn.CompileShader ::
      (compileEvents debug (vsResult debug env) g_vsSrc "VSMain" "vs_5_0" ++
      if FAILED (vsResult debug env).hr then [] else
      Event.invoke Fn.CompileShader ::
      (compileEvents debug (psResult debug env) g_psSrc "PSMain" "ps_5_0" ++
      if FAILED (psResult debug env).hr then
        [Event.Release Ptr.vsBlob (vsResult debug env).pBlob]
      else
      Event.CreateVertexShader env.device (vsResult debug env).pBlob ::
      if FAILED env.CreateVertexShader then
        [Event.Release Ptr.vsBlob (vsResult debug env).pBlob,
         Event.Release Ptr.psBlob (psResult debug env).pBlob]
      else
      Event.CreatePixelShader env.device (psResult debug env).pBlob ::
      [Event.Release Ptr.vsBlob (vsResult debug env).pBlob,
       Event.Release Ptr.psBlob (psResult debug env).pBlob])) := by
  unfold InitD3D CompileShader vsResult psResult compileEvents
  simp only []
  split_ifs <;> simp_all [events]

set_option maxHeartbeats 1000000 in
theorem releaseCount_InitD3D (debug : Bool) (env : Env) (g : Globals) (p : Ptr) :
    releaseCount p (InitD3D debug env g).2.2 ≤ 1 ∧
      (releaseCount p (InitD3D debug env g).2.2 = 1 → ∀ g1 : Globals, g1.handle p = 0) := by
  unfold releaseCount
  rw [InitD3D_events]
  unfold compileEvents
  split_ifs
  all_goals simp only [List.countP_cons, List.countP_append, List.countP_nil, Event.isReleaseOf]
  all_goals (cases p <;> simp_all [Globals.handle])

theorem mainLoop_closed (g : Globals) (polls : List (Option MSG)) :
    ∀ message, message ≠ WM_QUIT →
      mainLoop g message polls =
        (polls.any isQuit, (consumed polls).flatMap (iterationTrace g)) := by
  induction polls with
  | nil => intro message h; simp [mainLoop, consumed, h]
  | cons q rest ih =>
    intro message h
    unfold mainLoop
    simp only [h, if_false]
    cases q with
    | none =>
      simp only []
      rw [ih message h]
      simp [consumed, isQuit, iterationTrace]
    | some m =>
      simp only []
      by_cases hm : m.message = WM_QUIT
      · cases rest with
        | nil => simp [mainLoop, consumed, isQuit, iterationTrace, hm]
        | cons r rest2 => simp [mainLoop, consumed, isQuit, iterationTrace, hm]
      · rw [ih m.message hm]
        simp [consumed, isQuit, iterationTrace, hm]

theorem WinMain_exitCode (debug : Bool) (env : Env) (hInstance : Handle) (nCmdShow : Int)
    (polls : List (Option MSG)) :
    (WinMain debug env hInstance nCmdShow polls).exitCode =
      if env.CreateWindowEx = 0 then some (-1)
      else if FAILED (InitD3D debug env (windowGlobals env)).1 then some (-1)
      else if polls.any isQuit then some 0 else none := by
  unfold WinMain
  simp only []
  have hq : (0 : Nat) ≠ WM_QUIT := by decide
  rw [mainLoop_closed _ _ 0 hq]
  simp only [windowGlobals]
  split_ifs <;> simp_all [Cleanup]

theorem WinMain_trace (debug : Bool) (env : Env) (hInstance : Handle) (nCmdShow : Int)
    (polls : List (Option MSG)) :
    (WinMain debug env hInstance nCmdShow polls).trace =
      (Globals.initial, Event.RegisterClassEx hInstance "MinimalD3D11Window") ::
      (Globals.initial,
        Event.CreateWindowEx "MinimalD3D11Window" "Minimal D3D11" 800 600 hInstance) ::
      if env.CreateWindowEx = 0 then [] else
      (windowGlobals env, Event.ShowWindow env.CreateWindowEx nCmdShow) ::
      (windowGlobals env, Event.UpdateWindow env.CreateWindowEx) ::
      (windowGlobals env, Event.invoke Fn.InitD3D) ::
      ((InitD3D debug env (windowGlobals env)).2.2 ++
      if FAILED (InitD3D debug env (windowGlobals env)).1 then [] else
      (consumed polls).flatMap (iterationTrace (InitD3D debug env (windowGlobals env)).2.1) ++
      if polls.any isQuit then
        ((InitD3D debug env (windowGlobals env)).2.1, Event.invoke Fn.Cleanup) ::
          (Cleanup (InitD3D debug env (windowGlobals env)).2.1).2
      else []) := by
  unfold WinMain
  simp only []
  have hq : (0 : Nat) ≠ WM_QUIT := by decide
  rw [mainLoop_closed _ _ 0 hq]
  simp only [windowGlobals]
  split_ifs <;> simp_all

theorem releaseCount_iterations (g : Globals) (p : Ptr) (polls : List (Option MSG)) :
    releaseCount p ((consumed polls).flatMap (iterationTrace g)) = 0 := by
  have hq : (0 : Nat) ≠ WM_QUIT := by decide
  have h := releaseCount_mainLoop g p polls 0
  rw [mainLoop_closed g polls 0 hq] at h
  exact h

theorem releaseCount_WinMain (debug : Bool) (env : Env) (hInstance : Handle) (nCmdShow : Int)
    (polls : List (Option MSG)) (p : Ptr) :
    releaseCount p (WinMain debug env hInstance nCmdShow polls).trace ≤ 1 := by
  rw [WinMain_trace]
  have hi := releaseCount_InitD3D debug env (windowGlobals env) p
  have hc := releaseCount_Cleanup (InitD3D debug env (windowGlobals env)).2.1 p
  have hl := releaseCount_iterations (InitD3D debug env (windowGlobals env)).2.1 p polls
  have hz := hi.2
  split_ifs <;>
    simp only [releaseCount_cons, releaseCount_append, releaseCount_nil, Event.isReleaseOf,
      hl, hc] <;>
    simp
  · exact hi.1
  · by_cases h1 : releaseCount p (InitD3D debug env (windowGlobals env)).2.2 = 1
    · rw [hz h1]; simp [h1]
    · have := hi.1
      split_ifs <;> omega
  · exact hi.1

/-- C4 (as stated, refuted): with every global handle live, two calls of
`Cleanup` in a row release each of the six handles twice, not at most once. -/
theorem CleanupTwice_double_release :
    releaseCount Ptr.g_pPixelShader (CleanupTwice liveGlobals).2 = 2 ∧
    releaseCount Ptr.g_pVertexShader (CleanupTwice liveGlobals).2 = 2 ∧
    releaseCount Ptr.g_pRenderTargetView (CleanupTwice liveGlobals).2 = 2 ∧
    releaseCount Ptr.g_pSwapChain (CleanupTwice liveGlobals).2 = 2 ∧
    releaseCount Ptr.g_pImmediateContext (CleanupTwice liveGlobals).2 = 2 ∧
    releaseCount Ptr.g_pd3dDevice (CleanupTwice liveGlobals).2 = 2 ∧
    ¬ (∀ (g : Globals) (p : Ptr), releaseCount p (CleanupTwice g).2 ≤ 1) := by
  refine ⟨rfl, rfl, rfl, rfl, rfl, rfl, fun h => ?_⟩
  have h2 := h liveGlobals Ptr.g_pPixelShader
  have h3 : releaseCount Ptr.g_pPixelShader (CleanupTwice liveGlobals).2 = 2 := rfl
  omega

/-- C4 (amended): `Cleanup` makes no assignment to the globals; one call
releases through each global pointer exactly once when it is non-null and not
at all when it is null; a second call in a row repeats the releases of the
first (twice in total for a non-null handle); and in a run of `WinMain`, where
`Cleanup` is called at most once, no pointer variable is released through more
than once. -/
theorem Cleanup_release_counts (g : Globals) (p : Ptr) :
    (Cleanup g).1 = g ∧
    releaseCount p (Cleanup g).2 = (if g.handle p = 0 then 0 else 1) ∧
    releaseCount p (CleanupTwice g).2 = (if g.handle p = 0 then 0 else 2) ∧
    ∀ (debug : Bool) (env : Env) (hInstance : Handle) (nCmdShow : Int)
      (polls : List (Option MSG)),
      releaseCount p (WinMain debug env hInstance nCmdShow polls).trace ≤ 1 := by
  refine ⟨rfl, releaseCount_Cleanup g p, ?_, ?_⟩
  · have h : (CleanupTwice g).2 = (Cleanup g).2 ++ (Cleanup g).2 := rfl
    rw [h, releaseCount_append, releaseCount_Cleanup]
    split_ifs <;> rfl
  · intro debug env hInstance nCmdShow polls
    exact releaseCount_WinMain debug env hInstance nCmdShow polls p

/-- C9: `VSMain` sends the vertex indices 0, 1, 2 to the clip-space positions
(-1,-1), (3,-1), (-1,3) with z = 0 and w = 1, and every point (x, y) of the
viewport square -1 ≤ x ≤ 1, -1 ≤ y ≤ 1 is a convex combination of these three
positions, so the triangle covers the viewport. -/
theorem VSMain_triangle_covers_viewport (x y : ℝ) (hx : -1 ≤ x ∧ x ≤ 1)
    (hy : -1 ≤ y ∧ y ≤ 1) :
    VSMain 0 = some { x := -1, y := -1, z := 0, w := 1 } ∧
    VSMain 1 = some { x := 3, y := -1, z := 0, w := 1 } ∧
    VSMain 2 = some { x := -1, y := 3, z := 0, w := 1 } ∧
    ∃ v0 v1 v2 : float4, VSMain 0 = some v0 ∧ VSMain 1 = some v1 ∧ VSMain 2 = some v2 ∧
      ∃ a b c : ℝ, 0 ≤ a ∧ 0 ≤ b ∧ 0 ≤ c ∧ a + b + c = 1 ∧
        x = a * (v0.x : ℝ) + b * (v1.x : ℝ) + c * (v2.x : ℝ) ∧
        y = a * (v0.y : ℝ) + b * (v1.y : ℝ) + c * (v2.y : ℝ) := by
  refine ⟨rfl, rfl, rfl, ⟨-1, -1, 0, 1⟩, ⟨3, -1, 0, 1⟩, ⟨-1, 3, 0, 1⟩, rfl, rfl, rfl,
    (2 - x - y) / 4, (x + 1) / 4, (y + 1) / 4, ?_, ?_, ?_, ?_, ?_, ?_⟩
  · linarith [hx.2, hy.2]
  · linarith [hx.1]
  · linarith [hy.1]
  · ring
  · push_cast; ring
  · push_cast; ring

/-- C9 (witness): the centre (0, 0) of the viewport. -/
theorem VSMain_triangle_covers_viewport_witness :
    ((-1 : ℝ) ≤ 0 ∧ (0 : ℝ) ≤ 1) ∧
    (∃ v0 v1 v2 : float4, VSMain 0 = some v0 ∧ VSMain 1 = some v1 ∧ VSMain 2 = some v2 ∧
      ∃ a b c : ℝ, 0 ≤ a ∧ 0 ≤ b ∧ 0 ≤ c ∧ a + b + c = 1 ∧
        (0 : ℝ) = a * (v0.x : ℝ) + b * (v1.x : ℝ) + c * (v2.x : ℝ) ∧
        (0 : ℝ) = a * (v0.y : ℝ) + b * (v1.y : ℝ) + c * (v2.y : ℝ)) :=
  ⟨⟨by norm_num, by norm_num⟩,
   (VSMain_triangle_covers_viewport 0 0 ⟨by norm_num, by norm_num⟩
      ⟨by norm_num, by norm_num⟩).2.2.2⟩

theorem events_nil : events [] = [] := rfl

theorem events_cons (x : Globals × Event) (t : Trace) : events (x :: t) = x.2 :: events t := rfl

theorem events_append (s t : Trace) : events (s ++ t) = events s ++ events t := by
  simp [events]

theorem invokeCount_append (f : Fn) (s t : Trace) :
    invokeCount f (s ++ t) = invokeCount f s + invokeCount f t := by
  simp [invokeCount, events_append]

theorem invokeCount_cons (f : Fn) (x : Globals × Event) (t : Trace) :
    invokeCount f (x :: t) = (if Event.isInvoke f x.2 then 1 else 0) + invokeCount f t := by
  simp [invokeCount, events, List.countP_cons, Nat.add_comm]

theorem drawCount_append (s t : Trace) : drawCount (s ++ t) = drawCount s + drawCount t := by
  simp [drawCount, events_append]

theorem drawCount_cons (x : Globals × Event) (t : Trace) :
    drawCount (x :: t) = (if Event.isDraw x.2 then 1 else 0) + drawCount t := by
  simp [drawCount, events, List.countP_cons, Nat.add_comm]

theorem InitD3D_all_startup (debug : Bool) (env : Env) (g : Globals) :
    (events (InitD3D debug env g).2.2).all Event.isStartup = true := by
  rw [InitD3D_events]
  unfold compileEvents
  split_ifs <;> rfl

theorem counts_of_all_startup (t : Trace) (h : (events t).all Event.isStartup = true) :
    drawCount t = 0 ∧ invokeCount Fn.Render t = 0 ∧ invokeCount Fn.Cleanup t = 0 := by
  rw [List.all_eq_true] at h
  refine ⟨?_, ?_, ?_⟩
  · rw [drawCount, List.countP_eq_zero]
    intro e he
    have := h e he
    simp [Event.isStartup] at this
    simp [this.1.1]
  · rw [invokeCount, List.countP_eq_zero]
    intro e he
    have := h e he
    simp [Event.isStartup] at this
    simp [this.1.2]
  · rw [invokeCount, List.countP_eq_zero]
    intro e he
    have := h e he
    simp [Event.isStartup] at this
    simp [this.2]

theorem Cleanup_counts (g : Globals) :
    drawCount (Cleanup g).2 = 0 ∧ invokeCount Fn.Render (Cleanup g).2 = 0 ∧
      invokeCount Fn.Cleanup (Cleanup g).2 = 0 := by
  apply counts_of_all_startup
  rw [Cleanup_events]
  simp only [releaseOrder]
  by_cases h1 : g.g_pImmediateContext = 0 <;> by_cases h2 : g.g_pPixelShader = 0 <;>
    by_cases h3 : g.g_pVertexShader = 0 <;> by_cases h4 : g.g_pRenderTargetView = 0 <;>
    by_cases h5 : g.g_pSwapChain = 0 <;> by_cases h6 : g.g_pd3dDevice = 0 <;>
    simp [h1, h2, h3, h4, h5, h6, Event.isStartup, Event.isDraw, Event.isInvoke]

theorem iterations_counts (g : Globals) (l : List (Option MSG)) :
    drawCount (l.flatMap (iterationTrace g)) = l.count none ∧
      invokeCount Fn.Render (l.flatMap (iterationTrace g)) = l.count none ∧
      invokeCount Fn.Cleanup (l.flatMap (iterationTrace g)) = 0 := by
  induction l with
  | nil => exact ⟨rfl, rfl, rfl⟩
  | cons q rest ih =>
    obtain ⟨ih1, ih2, ih3⟩ := ih
    cases q with
    | none =>
      have h1 : drawCount (iterationTrace g none) = 1 := rfl
      have h2 : invokeCount Fn.Render (iterationTrace g none) = 1 := rfl
      have h3 : invokeCount Fn.Cleanup (iterationTrace g none) = 0 := rfl
      refine ⟨?_, ?_, ?_⟩
      · rw [List.flatMap_cons, drawCount_append, h1, ih1, List.count_cons_self]; omega
      · rw [List.flatMap_cons, invokeCount_append, h2, ih2, List.count_cons_self]; omega
      · rw [List.flatMap_cons, invokeCount_append, h3, ih3]
    | some m =>
      have h1 : drawCount (iterationTrace g (some m)) = 0 := rfl
      have h2 : invokeCount Fn.Render (iterationTrace g (some m)) = 0 := rfl
      have h3 : invokeCount Fn.Cleanup (iterationTrace g (some m)) = 0 := rfl
      have hc : (some m :: rest).count none = rest.count none := by simp
      refine ⟨?_, ?_, ?_⟩
      · rw [List.flatMap_cons, drawCount_append, h1, ih1, hc]; omega
      · rw [List.flatMap_cons, invokeCount_append, h2, ih2, hc]; omega
      · rw [List.flatMap_cons, invokeCount_append, h3, ih3]

theorem WinMain_counts (debug : Bool) (env : Env) (hInstance : Handle) (nCmdShow : Int)
    (polls : List (Option MSG)) :
    drawCount (WinMain debug env hInstance nCmdShow polls).trace =
      (if env.CreateWindowEx = 0 then 0
       else if FAILED (InitD3D debug env (windowGlobals env)).1 then 0
       else (consumed polls).count none) ∧
    invokeCount Fn.Render (WinMain debug env hInstance nCmdShow polls).trace =
      (if env.CreateWindowEx = 0 then 0
       else if FAILED (InitD3D debug env (windowGlobals env)).1 then 0
       else (consumed polls).count none) ∧
    invokeCount Fn.Cleanup (WinMain debug env hInstance nCmdShow polls).trace =
      (if env.CreateWindowEx = 0 then 0
       else if FAILED (InitD3D debug env (windowGlobals env)).1 then 0
       else if polls.any isQuit then 1 else 0) := by
  rw [WinMain_trace]
  obtain ⟨i1, i2, i3⟩ :=
    counts_of_all_startup _ (InitD3D_all_startup debug env (windowGlobals env))
  obtain ⟨c1, c2, c3⟩ := Cleanup_counts (InitD3D debug env (windowGlobals env)).2.1
  obtain ⟨l1, l2, l3⟩ := iterations_counts (InitD3D debug env (windowGlobals env)).2.1
    (consumed polls)
  have n1 : drawCount [] = 0 := rfl
  have n2 : ∀ f, invokeCount f [] = 0 := fun _ => rfl
  refine ⟨?_, ?_, ?_⟩ <;> split_ifs <;>
    simp only [drawCount_cons, drawCount_append, invokeCount_cons, invokeCount_append,
      i1, i2, i3, c1, c2, c3, l1, l2, l3, n1, n2, Event.isDraw, Event.isInvoke] <;>
    simp

/-- C2: `InitD3D` returns a failing status exactly when one of its seven
fallible steps fails; when `CreateWindowEx` returns null or `InitD3D` fails,
`WinMain` returns -1 and the run holds no call of `Render` and no `Draw`; when
neither fails and a poll retrieves `WM_QUIT`, `WinMain` returns 0. -/
theorem WinMain_exit_codes (debug : Bool) (env : Env) (hInstance : Handle) (nCmdShow : Int)
    (polls : List (Option MSG)) :
    (FAILED (InitD3D debug env (windowGlobals env)).1 = true ↔
      (FAILED env.D3D11CreateDeviceAndSwapChain = true ∨ FAILED env.GetBuffer = true ∨
       FAILED env.CreateRenderTargetView = true ∨ FAILED (vsResult debug env).hr = true ∨
       FAILED (psResult debug env).hr = true ∨ FAILED env.CreateVertexShader = true ∨
       FAILED env.CreatePixelShader = true)) ∧
    (env.CreateWindowEx = 0 ∨ FAILED (InitD3D debug env (windowGlobals env)).1 = true →
      (WinMain debug env hInstance nCmdShow polls).exitCode = some (-1) ∧
      invokeCount Fn.Render (WinMain debug env hInstance nCmdShow polls).trace = 0 ∧
      drawCount (WinMain debug env hInstance nCmdShow polls).trace = 0) ∧
    (env.CreateWindowEx ≠ 0 → FAILED (InitD3D debug env (windowGlobals env)).1 = false →
      polls.any isQuit = true →
      (WinMain debug env hInstance nCmdShow polls).exitCode = some 0) := by
  obtain ⟨c1, c2, _⟩ := WinMain_counts debug env hInstance nCmdShow polls
  refine ⟨?_, ?_, ?_⟩
  · rw [InitD3D_hr]
    split_ifs <;> simp_all [S_OK, FAILED]
  · intro h
    rw [WinMain_exitCode, c1, c2]
    rcases h with h | h
    · simp [h]
    · by_cases hw : env.CreateWindowEx = 0 <;> simp [h, hw]
  · intro hw hi hq
    rw [WinMain_exitCode]
    simp [hw, hi, hq]

/-- C2 (witness): a run in which no device can be created returns -1 without
rendering, and a run in which everything succeeds and the second poll finds
`WM_QUIT` returns 0. -/
theorem WinMain_exit_codes_witness :
    ((WinMain false noDeviceEnv 1 1 [none, some quitMsg]).exitCode = some (-1) ∧
      invokeCount Fn.Render (WinMain false noDeviceEnv 1 1 [none, some quitMsg]).trace = 0 ∧
      drawCount (WinMain false noDeviceEnv 1 1 [none, some quitMsg]).trace = 0) ∧
    (WinMain false okEnv 1 1 [none, some quitMsg]).exitCode = some 0 :=
  ⟨(WinMain_exit_codes false noDeviceEnv 1 1 [none, some quitMsg]).2.1 (Or.inr (by decide)),
   (WinMain_exit_codes false okEnv 1 1 [none, some quitMsg]).2.2 (by decide) (by decide)
     (by decide)⟩

theorem consumed_until_quit (pre post : List (Option MSG)) (m : MSG)
    (hpre : pre.any isQuit = false) (hm : m.message = WM_QUIT) :
    consumed (pre ++ some m :: post) = pre ++ [some m] := by
  induction pre with
  | nil => simp [consumed, isQuit, hm]
  | cons q rest ih =>
    simp only [List.any_cons, Bool.or_eq_false_iff] at hpre
    simp [consumed, hpre.1, ih hpre.2]

theorem consumed_of_no_quit (polls : List (Option MSG)) (h : polls.any isQuit = false) :
    consumed polls = polls := by
  induction polls with
  | nil => rfl
  | cons q rest ih =>
    simp only [List.any_cons, Bool.or_eq_false_iff] at h
    simp [consumed, h.1, ih h.2]

/-- C8: once the window exists and `InitD3D` has succeeded, the calls of the
main loop are, poll by poll, `PeekMessage` followed by one call of `Render`
(with the calls of its body) when the poll finds no message, and `PeekMessage`,
`TranslateMessage`, `DispatchMessage` and no `Render` when it retrieves one; the
polls made are those up to and including the first that retrieves `WM_QUIT`, so
the run holds exactly one call of `Render` per idle poll made and none after
the quit message; when a poll retrieves `WM_QUIT` the loop ends, `Cleanup` is
called exactly once, as the last thing of the run, and `WinMain` returns 0;
while no poll has retrieved it, `WinMain` has not returned and `Cleanup` has not
been called; and the window procedure answers `WM_DESTROY` by posting the quit
message. -/
theorem WinMain_loop (debug : Bool) (env : Env) (hInstance : Handle) (nCmdShow : Int)
    (polls : List (Option MSG)) (hw : env.CreateWindowEx ≠ 0)
    (hi : FAILED (InitD3D debug env (windowGlobals env)).1 = false) :
    (mainLoop (InitD3D debug env (windowGlobals env)).2.1 0 polls).2 =
      (consumed polls).flatMap (iterationTrace (InitD3D debug env (windowGlobals env)).2.1) ∧
    (∀ (pre post : List (Option MSG)) (m : MSG), polls = pre ++ some m :: post →
      pre.any isQuit = false → m.message = WM_QUIT → consumed polls = pre ++ [some m]) ∧
    (polls.any isQuit = false → consumed polls = polls) ∧
    invokeCount Fn.Render (WinMain debug env hInstance nCmdShow polls).trace =
      (consumed polls).count none ∧
    drawCount (WinMain debug env hInstance nCmdShow polls).trace = (consumed polls).count none ∧
    (polls.any isQuit = true →
      (WinMain debug env hInstance nCmdShow polls).exitCode = some 0 ∧
      invokeCount Fn.Cleanup (WinMain debug env hInstance nCmdShow polls).trace = 1 ∧
      ∃ startup : Trace,
        invokeCount Fn.Render startup = 0 ∧ invokeCount Fn.Cleanup startup = 0 ∧
        (WinMain debug env hInstance nCmdShow polls).trace =
          startup ++
          (consumed polls).flatMap
            (iterationTrace (InitD3D debug env (windowGlobals env)).2.1) ++
          ((InitD3D debug env (windowGlobals env)).2.1, Event.invoke Fn.Cleanup) ::
            (Cleanup (InitD3D debug env (windowGlobals env)).2.1).2) ∧
    (polls.any isQuit = false →
      (WinMain debug env hInstance nCmdShow polls).exitCode = none ∧
      invokeCount Fn.Cleanup (WinMain debug env hInstance nCmdShow polls).trace = 0) ∧
    (∀ (g : Globals) (hWnd : Handle) (wParam : Nat) (lParam : Int),
      WndProc env g hWnd WM_DESTROY wParam lParam = (0, [(g, Event.PostQuitMessage 0)])) := by
  obtain ⟨c1, c2, c3⟩ := WinMain_counts debug env hInstance nCmdShow polls
  obtain ⟨_, i2, i3⟩ :=
    counts_of_all_startup _ (InitD3D_all_startup debug env (windowGlobals env))
  have hq0 : (0 : Nat) ≠ WM_QUIT := by decide
  refine ⟨?_, ?_, consumed_of_no_quit polls, ?_, ?_, ?_, ?_, fun _ _ _ _ => rfl⟩
  · rw [mainLoop_closed _ _ 0 hq0]
  · intro pre post m hp hpre hm
    rw [hp]
    exact consumed_until_quit pre post m hpre hm
  · rw [c2]; simp [hw, hi]
  · rw [c1]; simp [hw, hi]
  · intro hq
    refine ⟨?_, ?_, ?_⟩
    · rw [WinMain_exitCode]; simp [hw, hi, hq]
    · rw [c3]; simp [hw, hi, hq]
    · refine ⟨(Globals.initial, Event.RegisterClassEx hInstance "MinimalD3D11Window") ::
        (Globals.initial,
          Event.CreateWindowEx "MinimalD3D11Window" "Minimal D3D11" 800 600 hInstance) ::
        (windowGlobals env, Event.ShowWindow env.CreateWindowEx nCmdShow) ::
        (windowGlobals env, Event.UpdateWindow env.CreateWindowEx) ::
        (windowGlobals env, Event.invoke Fn.InitD3D) ::
        (InitD3D debug env (windowGlobals env)).2.2, ?_, ?_, ?_⟩
      · simp only [invokeCount_cons, i2, Event.isInvoke]; simp
      · simp only [invokeCount_cons, i3, Event.isInvoke]; simp
      · rw [WinMain_trace]; simp [hw, hi, hq]
  · intro hq
    refine ⟨?_, ?_⟩
    · rw [WinMain_exitCode]; simp [hw, hi, hq]
    · rw [c3]; simp [hw, hi, hq]

/-- C8 (witness): everything succeeds; the polls find nothing, then a paint
message, then nothing, then `WM_QUIT`, and a last poll that is never made.  Two
frames are rendered and `Cleanup` runs once. -/
theorem WinMain_loop_witness :
    okEnv.CreateWindowEx ≠ 0 ∧
    FAILED (InitD3D false okEnv (windowGlobals okEnv)).1 = false ∧
    invokeCount Fn.Render
      (WinMain false okEnv 1 1 [none, some ⟨7, 15, 0, 0⟩, none, some quitMsg, none]).trace = 2 ∧
    invokeCount Fn.Cleanup
      (WinMain false okEnv 1 1 [none, some ⟨7, 15, 0, 0⟩, none, some quitMsg, none]).trace = 1 ∧
    (WinMain false okEnv 1 1 [none, some ⟨7, 15, 0, 0⟩, none, some quitMsg, none]).exitCode =
      some 0 := by
  have h := WinMain_loop false okEnv 1 1 [none, some ⟨7, 15, 0, 0⟩, none, some quitMsg, none]
    (by decide) (by decide)
  refine ⟨by decide, by decide, ?_, (h.2.2.2.2.2.1 (by decide)).2.1,
    (h.2.2.2.2.2.1 (by decide)).1⟩
  rw [h.2.2.2.1]
  decide

theorem InitD3D_steps_of_success (debug : Bool) (env : Env) (g : Globals)
    (h : FAILED (InitD3D debug env g).1 = false) :
    FAILED env.D3D11CreateDeviceAndSwapChain = false ∧ FAILED env.GetBuffer = false ∧
    FAILED env.CreateRenderTargetView = false ∧ FAILED (vsResult debug env).hr = false ∧
    FAILED (psResult debug env).hr = false ∧ FAILED env.CreateVertexShader = false ∧
    FAILED env.CreatePixelShader = false := by
  rw [InitD3D_hr] at h
  split_ifs at h <;> simp_all

theorem InitD3D_handles_of_success (debug : Bool) (env : Env) (g : Globals)
    (h : FAILED (InitD3D debug env g).1 = false) :
    (InitD3D debug env g).2.1.g_pd3dDevice = env.device ∧
    (InitD3D debug env g).2.1.g_pImmediateContext = env.context ∧
    (InitD3D debug env g).2.1.g_pSwapChain = env.swapChain ∧
    (InitD3D debug env g).2.1.g_pRenderTargetView = env.renderTargetView ∧
    (InitD3D debug env g).2.1.g_pVertexShader = env.vertexShader ∧
    (InitD3D debug env g).2.1.g_pPixelShader = env.pixelShader := by
  obtain ⟨h1, h2, h3, h4, h5, h6, h7⟩ := InitD3D_steps_of_success debug env g h
  unfold vsResult at h4
  unfold psResult at h5
  unfold InitD3D CompileShader
  simp [h1, h2, h3, h4, h5, h6, h7]

theorem not_draw_of_drawCount_zero (t : Trace) (h : drawCount t = 0) :
    ∀ x ∈ t, Event.isDraw x.2 = false := by
  intro x hx
  rw [drawCount, List.countP_eq_zero] at h
  have := h x.2 (by simp only [events, List.mem_map]; exact ⟨x, hx, rfl⟩)
  simpa using this

theorem iterationTrace_stamp (g : Globals) (q : Option MSG) :
    ∀ x ∈ iterationTrace g q, x.1 = g := by
  cases q <;> simp [iterationTrace, Render]

theorem WinMain_draw_stamp (debug : Bool) (env : Env) (hInstance : Handle) (nCmdShow : Int)
    (polls : List (Option MSG)) :
    ∀ x ∈ (WinMain debug env hInstance nCmdShow polls).trace, Event.isDraw x.2 = true →
      FAILED (InitD3D debug env (windowGlobals env)).1 = false ∧
        x.1 = (InitD3D debug env (windowGlobals env)).2.1 := by
  intro x hx hd
  rw [WinMain_trace] at hx
  have hI := not_draw_of_drawCount_zero _
    (counts_of_all_startup _ (InitD3D_all_startup debug env (windowGlobals env))).1
  have hC := not_draw_of_drawCount_zero _
    (Cleanup_counts (InitD3D debug env (windowGlobals env)).2.1).1
  have hnd : ∀ (g : Globals) (e : Event), x = (g, e) → Event.isDraw e = false → False := by
    intro g e hxe he
    rw [hxe] at hd
    simp [he] at hd
  by_cases hw : env.CreateWindowEx = 0
  · simp only [hw, if_true, List.mem_cons, List.not_mem_nil, or_false] at hx
    rcases hx with hx | hx
    · exact (hnd _ _ hx rfl).elim
    · exact (hnd _ _ hx rfl).elim
  · by_cases hf : FAILED (InitD3D debug env (windowGlobals env)).1 = true
    · simp only [hw, hf, if_true, if_false, List.mem_cons, List.mem_append, List.not_mem_nil,
        or_false] at hx
      rcases hx with hx | hx | hx | hx | hx | hx
      · exact (hnd _ _ hx rfl).elim
      · exact (hnd _ _ hx rfl).elim
      · exact (hnd _ _ hx rfl).elim
      · exact (hnd _ _ hx rfl).elim
      · exact (hnd _ _ hx rfl).elim
      · rw [hI x hx] at hd; simp at hd
    · have hf2 : FAILED (InitD3D debug env (windowGlobals env)).1 = false := by simpa using hf
      refine ⟨hf2, ?_⟩
      simp only [hw, hf2, Bool.false_eq_true, if_false, List.mem_cons, List.mem_append,
        List.mem_flatMap] at hx
      rcases hx with hx | hx | hx | hx | hx | hx | ⟨q, _, hx⟩ | hx
      · exact (hnd _ _ hx rfl).elim
      · exact (hnd _ _ hx rfl).elim
      · exact (hnd _ _ hx rfl).elim
      · exact (hnd _ _ hx rfl).elim
      · exact (hnd _ _ hx rfl).elim
      · rw [hI x hx] at hd; simp at hd
      · exact iterationTrace_stamp _ q x hx
      · by_cases hq : polls.any isQuit = true
        · simp only [hq, if_true, List.mem_cons] at hx
          rcases hx with hx | hx
          · exact (hnd _ _ hx rfl).elim
          · rw [hC x hx] at hd; simp at hd
        · simp [hq] at hx

/-- C3: provided the creation calls of the graphics interface honour their
contract (a successful call writes non-null object pointers), whenever
`InitD3D` returns success the device, immediate context, swap chain,
render-target view, vertex shader and pixel shader handles are all non-null;
and in every run of `WinMain` every `Draw` is issued with all six non-null. -/
theorem InitD3D_success_ready (debug : Bool) (env : Env) (hapi : ApiContract env) :
    (∀ g : Globals, FAILED (InitD3D debug env g).1 = false → (InitD3D debug env g).2.1.ready) ∧
    (∀ (hInstance : Handle) (nCmdShow : Int) (polls : List (Option MSG)),
      ∀ x ∈ (WinMain debug env hInstance nCmdShow polls).trace,
        Event.isDraw x.2 = true → x.1.ready) := by
  have key : ∀ g : Globals, FAILED (InitD3D debug env g).1 = false →
      (InitD3D debug env g).2.1.ready := by
    intro g h
    obtain ⟨h1, _, h3, _, _, h6, h7⟩ := InitD3D_steps_of_success debug env g h
    obtain ⟨e1, e2, e3, e4, e5, e6⟩ := InitD3D_handles_of_success debug env g h
    obtain ⟨a1, a2, a3, a4⟩ := hapi
    unfold Globals.ready
    rw [e1, e2, e3, e4, e5, e6]
    exact ⟨(a1 h1).2.1, (a1 h1).2.2, (a1 h1).1, a2 h3, a3 h6, a4 h7⟩
  refine ⟨key, ?_⟩
  intro hInstance nCmdShow polls x hx hd
  obtain ⟨hf, hg⟩ := WinMain_draw_stamp debug env hInstance nCmdShow polls x hx hd
  rw [hg]
  exact key _ hf

/-- C3 (witness): the all-succeeding environment. -/
theorem InitD3D_success_ready_witness :
    ApiContract okEnv ∧
    FAILED (InitD3D false okEnv (windowGlobals okEnv)).1 = false ∧
    (InitD3D false okEnv (windowGlobals okEnv)).2.1.ready ∧
    drawCount (WinMain false okEnv 1 1 [none, some quitMsg]).trace = 1 ∧
    (∀ x ∈ (WinMain false okEnv 1 1 [none, some quitMsg]).trace,
      Event.isDraw x.2 = true → x.1.ready) :=
  ⟨by decide, by decide,
   (InitD3D_success_ready false okEnv (by decide)).1 (windowGlobals okEnv) (by decide),
   by decide,
   (InitD3D_success_ready false okEnv (by decide)).2 1 1 [none, some quitMsg]⟩

set_option maxHeartbeats 1000000 in
/-- C7: when the device exists and `GetBuffer` has succeeded, `InitD3D`
releases the back-buffer surface exactly once before it returns, whatever
happens afterwards, and the handle released is the one `GetBuffer` wrote; when
`CreateRenderTargetView` fails, `InitD3D` returns that failing status having
issued only the creation of device and swap chain, `GetBuffer`,
`CreateRenderTargetView` and the release, so no render target is bound. -/
theorem InitD3D_back_buffer_released (debug : Bool) (env : Env) (g : Globals)
    (h1 : FAILED env.D3D11CreateDeviceAndSwapChain = false)
    (h2 : FAILED env.GetBuffer = false) :
    releaseCount Ptr.pBackBuffer (InitD3D debug env g).2.2 = 1 ∧
    Event.Release Ptr.pBackBuffer env.backBuffer ∈ events (InitD3D debug env g).2.2 ∧
    (FAILED env.CreateRenderTargetView = true →
      (InitD3D debug env g).1 = env.CreateRenderTargetView ∧
      events (InitD3D debug env g).2.2 =
        [ Event.D3D11CreateDeviceAndSwapChain (swapChainDesc g.g_hWnd),
          Event.GetBuffer env.swapChain 0,
          Event.CreateRenderTargetView env.device env.backBuffer,
          Event.Release Ptr.pBackBuffer env.backBuffer ] ∧
      (events (InitD3D debug env g).2.2).all (fun e => !e.isOMSetRenderTargets) = true) := by
  refine ⟨?_, ?_, ?_⟩
  · unfold releaseCount
    rw [InitD3D_events]
    unfold compileEvents
    simp only [h1, h2, Bool.false_eq_true, if_false]
    split_ifs
    all_goals simp only [List.countP_cons, List.countP_append, List.countP_nil,
      Event.isReleaseOf]
    all_goals simp
  · rw [InitD3D_events]
    simp [h1, h2]
  · intro h3
    rw [InitD3D_hr, InitD3D_events]
    simp [h1, h2, h3, Event.isOMSetRenderTargets]

/-- C7 (witness): a run in which `CreateRenderTargetView` fails. -/
theorem InitD3D_back_buffer_released_witness :
    FAILED noViewEnv.D3D11CreateDeviceAndSwapChain = false ∧
    FAILED noViewEnv.GetBuffer = false ∧
    FAILED noViewEnv.CreateRenderTargetView = true ∧
    releaseCount Ptr.pBackBuffer (InitD3D false noViewEnv (windowGlobals noViewEnv)).2.2 = 1 ∧
    (InitD3D false noViewEnv (windowGlobals noViewEnv)).1 = -2147024809 :=
  ⟨by decide, by decide, by decide,
   (InitD3D_back_buffer_released false noViewEnv (windowGlobals noViewEnv)
      (by decide) (by decide)).1,
   ((InitD3D_back_buffer_released false noViewEnv (windowGlobals noViewEnv)
      (by decide) (by decide)).2.2 (by decide)).1⟩

theorem InitD3D_shader_globals_of_compile_failure (debug : Bool) (env : Env) (g : Globals)
    (hc : FAILED (vsResult debug env).hr = true ∨ FAILED (psResult debug env).hr = true) :
    (InitD3D debug env g).2.1.g_pVertexShader = g.g_pVertexShader ∧
    (InitD3D debug env g).2.1.g_pPixelShader = g.g_pPixelShader := by
  unfold vsResult psResult at hc
  unfold InitD3D CompileShader
  simp only []
  split_ifs <;> simp_all

set_option maxHeartbeats 1000000 in
/-- C10: when `D3DCompile` fails, `CompileShader` returns its failing status
and sends to `OutputDebugStringA` the text of the error blob the compiler
handed back (nothing when it handed back none); and when, the earlier steps
having succeeded, the compilation of the vertex shader fails, or that of the
pixel shader after it, `InitD3D` returns that failing status, the diagnostic is
in its debug output, it issues no `CreateVertexShader` or `CreatePixelShader`
and leaves both shader handles as they were. -/
theorem CompileShader_failure_reported (debug : Bool) (env : Env) (g : Globals) :
    (∀ src entry target : String,
      FAILED (env.D3DCompile src entry target (compileFlags debug)).hr = true →
      (CompileShader debug env g src entry target).1 =
        (env.D3DCompile src entry target (compileFlags debug)).hr ∧
      debugOutput (CompileShader debug env g src entry target).2.2 =
        (if (env.D3DCompile src entry target (compileFlags debug)).pError ≠ 0 then
          [(env.D3DCompile src entry target (compileFlags debug)).errorText]
        else [])) ∧
    (FAILED env.D3D11CreateDeviceAndSwapChain = false → FAILED env.GetBuffer = false →
      FAILED env.CreateRenderTargetView = false →
      ∀ r : CompileResult,
        (r = vsResult debug env ∧ FAILED r.hr = true) ∨
          (FAILED (vsResult debug env).hr = false ∧ r = psResult debug env ∧
            FAILED r.hr = true) →
        (InitD3D debug env g).1 = r.hr ∧
        debugOutput (InitD3D debug env g).2.2 = (if r.pError ≠ 0 then [r.errorText] else []) ∧
        (events (InitD3D debug env g).2.2).all (fun e => !e.isCreateShader) = true ∧
        (InitD3D debug env g).2.1.g_pVertexShader = g.g_pVertexShader ∧
        (InitD3D debug env g).2.1.g_pPixelShader = g.g_pPixelShader) := by
  refine ⟨?_, ?_⟩
  · intro src entry target hf
    refine ⟨rfl, ?_⟩
    unfold debugOutput
    rw [CompileShader_events]
    unfold compileEvents
    split_ifs <;> simp_all
  · intro h1 h2 h3 r hr
    rcases hr with ⟨rfl, hv⟩ | ⟨hv, rfl, hp⟩
    · refine ⟨?_, ?_, ?_, InitD3D_shader_globals_of_compile_failure debug env g (Or.inl hv)⟩
      · rw [InitD3D_hr]; simp [h1, h2, h3, hv]
      · unfold debugOutput
        rw [InitD3D_events]
        unfold compileEvents
        simp only [h1, h2, h3, hv, Bool.false_eq_true, if_false, if_true, true_and]
        split_ifs <;> simp_all
      · rw [InitD3D_events]
        unfold compileEvents
        simp only [h1, h2, h3, hv, Bool.false_eq_true, if_false, if_true, true_and]
        split_ifs <;> rfl
    · refine ⟨?_, ?_, ?_, InitD3D_shader_globals_of_compile_failure debug env g (Or.inr hp)⟩
      · rw [InitD3D_hr]; simp [h1, h2, h3, hv, hp]
      · unfold debugOutput
        rw [InitD3D_events]
        unfold compileEvents
        simp only [h1, h2, h3, hv, hp, Bool.false_eq_true, if_false, if_true, true_and,
          false_and]
        split_ifs <;> simp_all
      · rw [InitD3D_events]
        unfold compileEvents
        simp only [h1, h2, h3, hv, hp, Bool.false_eq_true, if_false, if_true, true_and,
          false_and]
        split_ifs <;> rfl

/-- C10 (witness): the compiler rejects the pixel shader with the diagnostic
"error X3000"; `InitD3D` returns the compiler's status and the diagnostic is
the debug output. -/
theorem CompileShader_failure_reported_witness :
    FAILED (vsResult false badPixelShaderEnv).hr = false ∧
    FAILED (psResult false badPixelShaderEnv).hr = true ∧
    (psResult false badPixelShaderEnv).pError ≠ 0 ∧
    (psResult false badPixelShaderEnv).errorText = "error X3000" ∧
    (InitD3D false badPixelShaderEnv (windowGlobals badPixelShaderEnv)).1 =
      (psResult false badPixelShaderEnv).hr ∧
    debugOutput (InitD3D false badPixelShaderEnv (windowGlobals badPixelShaderEnv)).2.2 =
      (if (psResult false badPixelShaderEnv).pError ≠ 0 then
        [(psResult false badPixelShaderEnv).errorText] else []) :=
  ⟨by decide, by decide, by decide, by decide,
   ((CompileShader_failure_reported false badPixelShaderEnv
      (windowGlobals badPixelShaderEnv)).2 (by decide) (by decide) (by decide)
      (psResult false badPixelShaderEnv) (Or.inr ⟨by decide, rfl, by decide⟩)).1,
   ((CompileShader_failure_reported false badPixelShaderEnv
      (windowGlobals badPixelShaderEnv)).2 (by decide) (by decide) (by decide)
      (psResult false badPixelShaderEnv) (Or.inr ⟨by decide, rfl, by decide⟩)).2.1⟩

/-- C5: for every state of the globals, the calls of `Cleanup` are `ClearState`
on the immediate context when that is non-null, followed by one `Release` for
each non-null handle and none for a null one, in the order pixel shader,
vertex shader, render-target view, swap chain, immediate context, device. -/
theorem Cleanup_clear_then_release_in_order (g : Globals) :
    events (Cleanup g).2 =
      (if g.g_pImmediateContext ≠ 0 then [Event.ClearState g.g_pImmediateContext] else []) ++
      ((releaseOrder g).filter (fun q => decide (q.2 ≠ 0))).map
        (fun q => Event.Release q.1 q.2) :=
  Cleanup_events g

end MinimalD3D
